import Mathlib

/-!
Shallow embedding of `src/player.rs` (rustTracks playback controller).

The Rust code drives a GStreamer playbin. We embed:

- the `Player` struct and its operations (`new`, `init`, `set_uri`, `play`,
  `pause`, `stop`, `toggle`, `is_playing`, `can_play`);
- the `ClockIDWrapper` RAII guard (its `Drop` performs
  `gst_clock_id_unschedule` then `gst_clock_id_unref`);
- the bodies of the two watcher tasks spawned by `start_report_watch` and
  `start_progress_watch` (one iteration each, as a function of the clock-wait
  result and the query results);
- the `bus_callback` bus handler.

Modelling conventions:

- External GStreamer / GLib calls are recorded as an ordered `Effect` trace.
- `fail!` / `unreachable!` / dereferencing or `from_c_str`-ing a null pointer
  are abnormal termination; every fallible operation returns an `Option`, and
  `none` means the operation faulted instead of returning.
- `GstClockID` values are modelled as natural numbers drawn from an explicit
  supply counter (the Rust code gets fresh opaque ids from
  `gst_clock_new_single_shot_id` / `gst_clock_new_periodic_id`).
- Nullable C strings are `Option String`; `from_c_str` applied to a null
  pointer faults (in the Rust code it is undefined behaviour / a crash).
- Logging macros (`error!`, `warn!`, ...) are side-effect free for the event
  channel and are not recorded; `log_enabled!` levels are an explicit
  `LogLevels` parameter. Events sent on the gui channel are recorded in order.
-/

/-- GStreamer pipeline states used by the code
(`GST_STATE_NULL/READY/PAUSED/PLAYING`). -/
inductive GstState where
  | null
  | ready
  | paused
  | playing
  deriving DecidableEq, Repr

/-- External calls issued by the player code, in program order.
Clock ids carry the modelled `GstClockID` (a `Nat`); the single-shot and
periodic constructors also carry the nanosecond offset/period used. -/
inductive Effect where
  | gstInitWithArgs
  | gstElementFactoryMakePlaybin
  | gstBusAddWatch
  | gstElementSetState (st : GstState)
  | gObjectSetUri (uri : String)
  | gstPipelineGetClock
  | gstClockNewSingleShotId (ci offset : Nat)
  | gstClockNewPeriodicId (ci offset period : Nat)
  | gstClockIdUnschedule (ci : Nat)
  | gstClockIdUnref (ci : Nat)
  | taskSpawnReport (ci : Nat)
  | taskSpawnProgress (ci : Nat)
  | gstObjectUnrefClock
  deriving DecidableEq, Repr

/-- Events sent on the gui channel (`gui::ReportCurrentTrack`,
`gui::SetProgress`, `gui::NextTrack`, `gui::Notify`).  Position and duration
are `gint64` nanosecond values, embedded as `Int`. -/
inductive Event where
  | ReportCurrentTrack
  | SetProgress (p : Option (Int × Int))
  | NextTrack
  | Notify (msg : String)
  deriving DecidableEq, Repr

/-- `std::str::raw::from_c_str`: reading a C string.  A null pointer
(`none`) faults — old-Rust `from_c_str` on null is a crash, not a sentinel. -/
def from_c_str (p : Option String) : Option String := p

/-- `impl Drop for ClockIDWrapper`: `gst_clock_id_unschedule(self.ci)` then
`gst_clock_id_unref(self.ci)`. -/
def ClockIDWrapper.dropEffects (ci : Nat) : List Effect :=
  [Effect.gstClockIdUnschedule ci, Effect.gstClockIdUnref ci]

/-- Effects of overwriting an `Option<ClockIDWrapper>` field: dropping
`Some(w)` runs the wrapper's destructor, dropping `None` does nothing. -/
def dropOptEffects : Option Nat → List Effect
  | none => []
  | some ci => ClockIDWrapper.dropEffects ci

/-- The `Player` struct.  The raw `playbin` pointer is opaque to every claim
and is kept abstract (it is non-null from `init` on, enforced by the
`fail!("failed to create playbin")` check); the two `Option<ClockIDWrapper>`
fields hold the modelled clock ids. -/
structure Player where
  initialized : Bool
  uri_set : Bool
  playing : Bool
  report_clock_id : Option Nat
  progress_clock_id : Option Nat
  deriving DecidableEq, Repr

/-- `Player::new()`. -/
def Player.new : Player :=
  { initialized := false
    uri_set := false
    playing := false
    report_clock_id := none
    progress_clock_id := none }

/-- Report single-shot timeout: `30 * 1000 * 1000 * 1000` nanoseconds. -/
def report_timeout_ns : Nat := 30 * 1000 * 1000 * 1000

/-- Progress period: `1 * 1000 * 1000 * 1000` nanoseconds. -/
def progress_period_ns : Nat := 1 * 1000 * 1000 * 1000

/-- `Player::init`.  `factory_ok` stands for `gst_element_factory_make`
returning non-null; if it is null the code runs
`fail!("failed to create playbin")` (abnormal termination, `none`).
Otherwise the bus watch is installed and `initialized` is set.  The
`args`/`gui` passthrough values are external-collaborator data with no
bearing on any claim and are omitted. -/
def Player.init (p : Player) (factory_ok : Bool) :
    Option (Player × List Effect) :=
  if !factory_ok then none
  else
    some ({ p with initialized := true },
      [Effect.gstInitWithArgs, Effect.gstElementFactoryMakePlaybin,
       Effect.gstBusAddWatch])

/-- `Player::start_report_watch` with `n` the next fresh clock id.
In order: `gst_pipeline_get_clock`, compute `target_time = now + 30s`,
`gst_clock_new_single_shot_id`, assign `self.report_clock_id`
(dropping any previous wrapper), spawn the watcher task, unref the clock. -/
def Player.start_report_watch (p : Player) (n : Nat) :
    Player × Nat × List Effect :=
  ({ p with report_clock_id := some n }, n + 1,
    [Effect.gstPipelineGetClock,
     Effect.gstClockNewSingleShotId n report_timeout_ns]
      ++ dropOptEffects p.report_clock_id
      ++ [Effect.taskSpawnReport n, Effect.gstObjectUnrefClock])

/-- `Player::start_progress_watch` with `n` the next fresh clock id.
Same shape as `start_report_watch` but with a periodic id and the progress
watcher task. -/
def Player.start_progress_watch (p : Player) (n : Nat) :
    Player × Nat × List Effect :=
  ({ p with progress_clock_id := some n }, n + 1,
    [Effect.gstPipelineGetClock,
     Effect.gstClockNewPeriodicId n progress_period_ns progress_period_ns]
      ++ dropOptEffects p.progress_clock_id
      ++ [Effect.taskSpawnProgress n, Effect.gstObjectUnrefClock])

/-- `Player::stop`.  `fail!` when not initialized; otherwise drop both
clock-id wrappers (each drop unschedules then unrefs), set the pipeline to
`GST_STATE_READY`, and clear `uri_set` and `playing`. -/
def Player.stop (p : Player) : Option (Player × List Effect) :=
  if !p.initialized then none
  else
    some ({ p with report_clock_id := none, progress_clock_id := none,
                   uri_set := false, playing := false },
      dropOptEffects p.report_clock_id ++ dropOptEffects p.progress_clock_id
        ++ [Effect.gstElementSetState GstState.ready])

/-- `Player::set_uri` with `n` the next fresh clock id.  In order:
`self.stop()`; `g_object_set` of the `uri` property; `start_report_watch`;
`start_progress_watch`; `self.uri_set = true`. -/
def Player.set_uri (p : Player) (uri : String) (n : Nat) :
    Option (Player × Nat × List Effect) :=
  match p.stop with
  | none => none
  | some (p1, tr1) =>
    let tr2 := [Effect.gObjectSetUri uri]
    let (p2, n2, tr3) := p1.start_report_watch n
    let (p3, n3, tr4) := p2.start_progress_watch n2
    some ({ p3 with uri_set := true }, n3, tr1 ++ tr2 ++ tr3 ++ tr4)

/-- `Player::play`.  `fail!` when not initialized; early return (no effect)
when `uri_set` is false; otherwise set the pipeline to playing and set
`playing = true`. -/
def Player.play (p : Player) : Option (Player × List Effect) :=
  if !p.initialized then none
  else if !p.uri_set then some (p, [])
  else
    some ({ p with playing := true },
      [Effect.gstElementSetState GstState.playing])

/-- `Player::pause`.  `fail!` when not initialized; otherwise set the
pipeline to paused and set `playing = false`. -/
def Player.pause (p : Player) : Option (Player × List Effect) :=
  if !p.initialized then none
  else
    some ({ p with playing := false },
      [Effect.gstElementSetState GstState.paused])

/-- `Player::toggle`: `pause()` if `playing`, else `play()`. -/
def Player.toggle (p : Player) : Option (Player × List Effect) :=
  if p.playing then p.pause else p.play

/-- `Player::is_playing`. -/
def Player.is_playing (p : Player) : Bool := p.playing

/-- `Player::can_play`. -/
def Player.can_play (p : Player) : Bool := p.uri_set

/-! ## Command sequences

A `Sys` pairs the player with the fresh-clock-id supply; `Cmd`/`Sys.step`/`run`
give the reachable states of the command surface. -/

/-- A command of the Player command surface.  `init` carries whether
`gst_element_factory_make` succeeds. -/
inductive Cmd where
  | init (factory_ok : Bool)
  | set_uri (uri : String)
  | play
  | pause
  | stop
  | toggle
  deriving DecidableEq, Repr

/-- Player state together with the fresh clock-id supply. -/
structure Sys where
  player : Player
  next_ci : Nat
  deriving DecidableEq, Repr

/-- The freshly constructed system: `Player::new()` and an empty id supply. -/
def Sys.new : Sys := { player := Player.new, next_ci := 0 }

/-- One command step; `none` when the operation faults (`fail!`). -/
def Sys.step (s : Sys) : Cmd → Option (Sys × List Effect)
  | Cmd.init ok =>
    (s.player.init ok).map (fun r => ({ s with player := r.1 }, r.2))
  | Cmd.set_uri uri =>
    (s.player.set_uri uri s.next_ci).map
      (fun r => ({ player := r.1, next_ci := r.2.1 }, r.2.2))
  | Cmd.play =>
    s.player.play.map (fun r => ({ s with player := r.1 }, r.2))
  | Cmd.pause =>
    s.player.pause.map (fun r => ({ s with player := r.1 }, r.2))
  | Cmd.stop =>
    s.player.stop.map (fun r => ({ s with player := r.1 }, r.2))
  | Cmd.toggle =>
    s.player.toggle.map (fun r => ({ s with player := r.1 }, r.2))

/-- Run a command sequence; `none` as soon as a step faults. -/
def run (s : Sys) : List Cmd → Option Sys
  | [] => some s
  | c :: cs =>
    match s.step c with
    | none => none
    | some (s1, _) => run s1 cs

/-! ## Watcher task bodies -/

/-- `GstClockReturn` values as matched by the watcher loops. -/
inductive GstClockReturn where
  | ok
  | early
  | unscheduled
  | busy
  | badtime
  | err
  | unsupported
  | done
  deriving DecidableEq, Repr

/-- The report watcher body (one run of the spawned task):
on `GST_CLOCK_UNSCHEDULED` terminate silently; on `GST_CLOCK_OK` send
`ReportCurrentTrack` and terminate; anything else is `unreachable!`
(faults, `none`).  Returns the events sent. -/
def report_watch_body (res : GstClockReturn) : Option (List Event) :=
  match res with
  | GstClockReturn.unscheduled => some []
  | GstClockReturn.ok => some [Event.ReportCurrentTrack]
  | _ => none

/-- Outcome of one progress-watcher loop iteration. -/
inductive ProgressStep where
  | emitAndContinue (e : Event)
  | exitLoop
  deriving DecidableEq, Repr

/-- One iteration of the progress watcher loop.  `posQuery`/`durQuery` are
the results of `gst_element_query_position` / `gst_element_query_duration`:
a `gboolean` success flag (`0` = failure) and the out-parameter value.
On `GST_CLOCK_UNSCHEDULED`: break.  On `GST_CLOCK_OK`: send
`SetProgress(Some((position, duration)))` when
`success_duration != 0 && success_position != 0`, else `SetProgress(None)`,
then loop.  Anything else is `unreachable!` (faults, `none`). -/
def progress_watch_body (res : GstClockReturn)
    (posQuery durQuery : Int × Int) : Option ProgressStep :=
  match res with
  | GstClockReturn.unscheduled => some ProgressStep.exitLoop
  | GstClockReturn.ok =>
    let (success_position, current_position) := posQuery
    let (success_duration, current_duration) := durQuery
    if success_duration != 0 && success_position != 0 then
      some (ProgressStep.emitAndContinue
        (Event.SetProgress (some (current_position, current_duration))))
    else
      some (ProgressStep.emitAndContinue (Event.SetProgress none))
  | _ => none

/-! ## Bus callback -/

/-- `GstMessageType` values distinguished by `bus_callback`. -/
inductive MsgKind where
  | error
  | warning
  | info
  | eos
  | other
  deriving DecidableEq, Repr

/-- A bus message as read by `bus_callback`.
`src_name = none` models `(*msg).src` being null; `some none` models a
non-null src whose `gst_object_get_name` returns null; `some (some s)` a
readable name.  For Error/Warning/Info messages, `errText` models
`(*err).message` after `gst_message_parse_error` (`none` = the parsed
error or its message pointer is null, so reading it faults) and `dbgText`
models the parsed debug string (`none` = null pointer).  `type_name` is the
`gst_message_type_get_name` string used by the default branch. -/
structure GstMessage where
  kind : MsgKind
  src_name : Option (Option String)
  errText : Option String
  dbgText : Option String
  type_name : String
  deriving DecidableEq, Repr

/-- `log_enabled!` levels consulted by `bus_callback`. -/
structure LogLevels where
  warnEnabled : Bool
  infoEnabled : Bool
  debugEnabled : Bool
  deriving DecidableEq, Repr

/-- The name-resolution block at the top of `bus_callback`: a null source
object yields the sentinel `"null-source"`, a null name pointer yields the
sentinel `"null-name"`, otherwise the name is read (and its buffer freed). -/
def resolve_name : Option (Option String) → String
  | none => "null-source"
  | some none => "null-name"
  | some (some s) => s

/-- `bus_callback`.  Returns the list of events sent on the gui channel in
order and the `gboolean` return value (always `1`, retain), or `none` when
the handler faults.  In the Error branch, `from_c_str((*err).message)` is
read first (faulting on null before anything is sent), then the debug string
is read for logging (faulting on null before the `Notify` send), then the
`Notify` event is sent.  Warning/Info read both strings only when their log
level is enabled, and send nothing.  EOS sends `NextTrack`.  The default
branch only logs. -/
def bus_callback (lv : LogLevels) (msg : GstMessage) :
    Option (List Event × Nat) :=
  let name := resolve_name msg.src_name
  match msg.kind with
  | MsgKind.error =>
    match from_c_str msg.errText with
    | none => none
    | some err_msg =>
      match from_c_str msg.dbgText with
      | none => none
      | some _dbg =>
        some ([Event.Notify ("Playback error: `" ++ err_msg ++ "`")], 1)
  | MsgKind.warning =>
    if lv.warnEnabled then
      match from_c_str msg.errText, from_c_str msg.dbgText with
      | some _e, some _d => some ([], 1)
      | _, _ => none
    else some ([], 1)
  | MsgKind.info =>
    if lv.infoEnabled then
      match from_c_str msg.errText, from_c_str msg.dbgText with
      | some _e, some _d => some ([], 1)
      | _, _ => none
    else some ([], 1)
  | MsgKind.eos => some ([Event.NextTrack], 1)
  | MsgKind.other =>
    let _ := name
    let _ := msg.type_name
    some ([], 1)

/-- The Player state invariant of the spec:
`playing ⇒ sourceLoaded ⇒ initialized`. -/
def PlayerInv (p : Player) : Prop :=
  (p.playing = true → p.uri_set = true) ∧
  (p.uri_set = true → p.initialized = true)

instance (p : Player) : Decidable (PlayerInv p) := by
  unfold PlayerInv
  infer_instance

/-- Bound on the live clock ids: every held id is below the supply
counter, so ids handed out by the supply are genuinely fresh. -/
def idsBelow (p : Player) (n : Nat) : Bool :=
  (match p.report_clock_id with
   | none => true
   | some ci => ci < n) &&
  (match p.progress_clock_id with
   | none => true
   | some ci => ci < n)

/-! ## Helper lemmas -/

/-- A successful `stop` fixes the observable fields and clears both
clock-id fields. -/
theorem stop_eq (p : Player) (h : p.initialized = true) :
    p.stop = some
      ({ p with report_clock_id := none, progress_clock_id := none,
                uri_set := false, playing := false },
       dropOptEffects p.report_clock_id ++ dropOptEffects p.progress_clock_id
         ++ [Effect.gstElementSetState GstState.ready]) := by
  simp [Player.stop, h]

/-- Every single command step preserves the Player invariant. -/
theorem step_preserves_inv (s : Sys) (c : Cmd) (s1 : Sys) (tr : List Effect)
    (h : s.step c = some (s1, tr)) (hinv : PlayerInv s.player) :
    PlayerInv s1.player := by
  obtain ⟨⟨ini, us, pl, rc, pc⟩, n⟩ := s
  obtain ⟨hpu, hui⟩ := hinv
  cases c <;>
    cases ini <;> cases us <;> cases pl <;>
    simp_all [Sys.step, Player.init, Player.set_uri, Player.stop,
      Player.start_report_watch, Player.start_progress_watch,
      Player.play, Player.pause, Player.toggle, PlayerInv] <;>
    (obtain ⟨a, ⟨-, rfl, rfl⟩, rfl⟩ := h) <;> (try subst a) <;> simp

/-- Running any command sequence preserves the Player invariant. -/
theorem run_preserves_inv (cmds : List Cmd) (s s1 : Sys)
    (h : run s cmds = some s1) (hinv : PlayerInv s.player) :
    PlayerInv s1.player := by
  induction cmds generalizing s with
  | nil =>
    simp [run] at h
    exact h ▸ hinv
  | cons c cs ih =>
    unfold run at h
    cases hstep : s.step c with
    | none => rw [hstep] at h; exact absurd h (by simp)
    | some r =>
      rw [hstep] at h
      exact ih r.1 h (step_preserves_inv s c r.1 r.2 hstep hinv)

/-- C2: for every sequence of Player commands (new, init, set_uri, play,
pause, stop, toggle) starting from the freshly constructed Player, every
reachable state satisfies `playing ⇒ uri_set ⇒ initialized`. -/
theorem C2_invariant_reachable (cmds : List Cmd) (s : Sys)
    (h : run Sys.new cmds = some s) : PlayerInv s.player := by
  refine run_preserves_inv cmds Sys.new s h ?_
  exact ⟨by simp [Sys.new, Player.new], by simp [Sys.new, Player.new]⟩

/-- C2 witness: the invariant holds at the concrete state reached by
`init; set_uri "file:///a.mp3"; play`. -/
theorem C2_invariant_reachable_witness :
    PlayerInv { initialized := true, uri_set := true, playing := true,
                report_clock_id := some 0, progress_clock_id := some 1 } :=
  C2_invariant_reachable
    [Cmd.init true, Cmd.set_uri "file:///a.mp3", Cmd.play]
    { player := { initialized := true, uri_set := true, playing := true,
                  report_clock_id := some 0, progress_clock_id := some 1 },
      next_ci := 2 }
    (by rfl)

/-- C3: on any initialized Player, `stop()` returns normally with
`is_playing() = false`, `can_play() = false`, both clock-id fields cleared,
and the trace contains an unschedule (cancel) and an unref for every
previously held Report or Progress clock handle. -/
theorem C3_stop_releases (p : Player) (h : p.initialized = true) :
    ∃ q tr, p.stop = some (q, tr) ∧
      q.is_playing = false ∧ q.can_play = false ∧
      q.report_clock_id = none ∧ q.progress_clock_id = none ∧
      (∀ ci, p.report_clock_id = some ci →
        Effect.gstClockIdUnschedule ci ∈ tr ∧ Effect.gstClockIdUnref ci ∈ tr) ∧
      (∀ ci, p.progress_clock_id = some ci →
        Effect.gstClockIdUnschedule ci ∈ tr ∧ Effect.gstClockIdUnref ci ∈ tr) := by
  refine ⟨_, _, stop_eq p h, rfl, rfl, rfl, rfl, ?_, ?_⟩ <;>
    intro ci hci <;>
    simp [hci, dropOptEffects, ClockIDWrapper.dropEffects]

/-- C3 witness: stopping a concrete playing Player holding handles 0 and 1. -/
theorem C3_stop_releases_witness :
    ∃ q tr,
      Player.stop { initialized := true, uri_set := true, playing := true,
                    report_clock_id := some 0, progress_clock_id := some 1 }
        = some (q, tr) ∧
      q.is_playing = false ∧ q.can_play = false ∧
      q.report_clock_id = none ∧ q.progress_clock_id = none ∧
      (∀ ci, (some 0 : Option Nat) = some ci →
        Effect.gstClockIdUnschedule ci ∈ tr ∧ Effect.gstClockIdUnref ci ∈ tr) ∧
      (∀ ci, (some 1 : Option Nat) = some ci →
        Effect.gstClockIdUnschedule ci ∈ tr ∧ Effect.gstClockIdUnref ci ∈ tr) :=
  C3_stop_releases
    { initialized := true, uri_set := true, playing := true,
      report_clock_id := some 0, progress_clock_id := some 1 } rfl

/-- C4: on any initialized Player, `set_uri` performs, in order:
(a) `stop()` (whose trace cancels and releases both held clock handles and
resets the pipeline to ready); (b) setting the pipeline's uri property;
(c) starting a fresh Report watcher then a fresh Progress watcher, each with
a newly created clock id (distinct from every previously held one, given
that held ids are below the supply counter); (d) setting `uri_set = true`. -/
theorem C4_set_uri_steps (p : Player) (uri : String) (n : Nat)
    (h : p.initialized = true) (hfresh : idsBelow p n = true) :
    ∃ pStop trStop q tr,
      p.stop = some (pStop, trStop) ∧
      p.set_uri uri n = some (q, n + 2, tr) ∧
      tr = trStop ++ [Effect.gObjectSetUri uri]
        ++ [Effect.gstPipelineGetClock,
            Effect.gstClockNewSingleShotId n report_timeout_ns,
            Effect.taskSpawnReport n, Effect.gstObjectUnrefClock]
        ++ [Effect.gstPipelineGetClock,
            Effect.gstClockNewPeriodicId (n + 1) progress_period_ns
              progress_period_ns,
            Effect.taskSpawnProgress (n + 1), Effect.gstObjectUnrefClock] ∧
      q.uri_set = true ∧
      q.report_clock_id = some n ∧
      q.progress_clock_id = some (n + 1) ∧
      p.report_clock_id ≠ some n ∧ p.report_clock_id ≠ some (n + 1) ∧
      p.progress_clock_id ≠ some n ∧ p.progress_clock_id ≠ some (n + 1) := by
  have h1 : p.set_uri uri n = some
      ({ p with report_clock_id := some n, progress_clock_id := some (n + 1),
                uri_set := true, playing := false },
       n + 2,
       (dropOptEffects p.report_clock_id ++ dropOptEffects p.progress_clock_id
          ++ [Effect.gstElementSetState GstState.ready])
         ++ [Effect.gObjectSetUri uri]
         ++ [Effect.gstPipelineGetClock,
             Effect.gstClockNewSingleShotId n report_timeout_ns,
             Effect.taskSpawnReport n, Effect.gstObjectUnrefClock]
         ++ [Effect.gstPipelineGetClock,
             Effect.gstClockNewPeriodicId (n + 1) progress_period_ns
               progress_period_ns,
             Effect.taskSpawnProgress (n + 1), Effect.gstObjectUnrefClock]) := by
    simp [Player.set_uri, stop_eq p h, Player.start_report_watch,
      Player.start_progress_watch, dropOptEffects]
  simp only [idsBelow, Bool.and_eq_true] at hfresh
  obtain ⟨hr, hp⟩ := hfresh
  have hrep : p.report_clock_id ≠ some n ∧ p.report_clock_id ≠ some (n + 1) := by
    cases hrc : p.report_clock_id with
    | none => simp
    | some ci =>
      rw [hrc] at hr
      simp only [decide_eq_true_eq] at hr
      constructor <;> simp only [ne_eq, Option.some.injEq] <;> omega
  have hpro : p.progress_clock_id ≠ some n ∧
      p.progress_clock_id ≠ some (n + 1) := by
    cases hpc : p.progress_clock_id with
    | none => simp
    | some ci =>
      rw [hpc] at hp
      simp only [decide_eq_true_eq] at hp
      constructor <;> simp only [ne_eq, Option.some.injEq] <;> omega
  exact ⟨_, _, _, _, stop_eq p h, h1, rfl, rfl, rfl, rfl,
    hrep.1, hrep.2, hpro.1, hpro.2⟩

/-- C4 witness: `set_uri` on a concrete initialized Player holding handles
0 and 1, with supply counter 5. -/
theorem C4_set_uri_steps_witness :
    ∃ pStop trStop q tr,
      Player.stop { initialized := true, uri_set := true, playing := false,
                    report_clock_id := some 0, progress_clock_id := some 1 }
        = some (pStop, trStop) ∧
      Player.set_uri
          { initialized := true, uri_set := true, playing := false,
            report_clock_id := some 0, progress_clock_id := some 1 }
          "file:///a.mp3" 5
        = some (q, 5 + 2, tr) ∧
      tr = trStop ++ [Effect.gObjectSetUri "file:///a.mp3"]
        ++ [Effect.gstPipelineGetClock,
            Effect.gstClockNewSingleShotId 5 report_timeout_ns,
            Effect.taskSpawnReport 5, Effect.gstObjectUnrefClock]
        ++ [Effect.gstPipelineGetClock,
            Effect.gstClockNewPeriodicId (5 + 1) progress_period_ns
              progress_period_ns,
            Effect.taskSpawnProgress (5 + 1), Effect.gstObjectUnrefClock] ∧
      q.uri_set = true ∧
      q.report_clock_id = some 5 ∧
      q.progress_clock_id = some (5 + 1) ∧
      (some 0 : Option Nat) ≠ some 5 ∧ (some 0 : Option Nat) ≠ some (5 + 1) ∧
      (some 1 : Option Nat) ≠ some 5 ∧ (some 1 : Option Nat) ≠ some (5 + 1) :=
  C4_set_uri_steps
    { initialized := true, uri_set := true, playing := false,
      report_clock_id := some 0, progress_clock_id := some 1 }
    "file:///a.mp3" 5 rfl (by decide)

/-- C5: on any initialized Player with `can_play() = false`, `play()` is a
no-op: it returns the state unchanged with an empty effect trace (no
pipeline state transition); and on any state satisfying the Player
invariant, `is_playing()` is then false. -/
theorem C5_play_noop (p : Player) (h1 : p.initialized = true)
    (h2 : p.can_play = false) :
    p.play = some (p, []) ∧ (PlayerInv p → p.is_playing = false) := by
  constructor
  · simp only [Player.can_play] at h2
    simp [Player.play, h1, h2]
  · intro hinv
    simp only [Player.can_play] at h2
    simp only [Player.is_playing]
    cases hpl : p.playing
    · rfl
    · exact absurd (hinv.1 hpl) (by simp [h2])

/-- C5 witness: `play` on a concrete initialized Player with no uri set. -/
theorem C5_play_noop_witness :
    Player.play { initialized := true, uri_set := false, playing := false,
                  report_clock_id := none, progress_clock_id := none }
      = some ({ initialized := true, uri_set := false, playing := false,
                report_clock_id := none, progress_clock_id := none }, []) ∧
    (PlayerInv { initialized := true, uri_set := false, playing := false,
                 report_clock_id := none, progress_clock_id := none } →
      Player.is_playing
        { initialized := true, uri_set := false, playing := false,
          report_clock_id := none, progress_clock_id := none } = false) :=
  C5_play_noop
    { initialized := true, uri_set := false, playing := false,
      report_clock_id := none, progress_clock_id := none } rfl rfl

/-- C1 counterexample: an Error bus message whose parsed error string is
null makes `bus_callback` fault (no sentinel is substituted, the handler
does not return normally), refuting the claim as stated. -/
theorem C1_counterexample :
    bus_callback { warnEnabled := true, infoEnabled := true,
                   debugEnabled := true }
      { kind := MsgKind.error, src_name := some (some "playbin"),
        errText := none, dbgText := some "debug info",
        type_name := "error" } = none := by
  rfl

/-- C1 (amended): for Error/Warning/Info bus messages, only the source
element name degrades to fixed sentinels ("null-source"/"null-name"); the
handler returns normally exactly when both parsed strings are non-null or
never read (Warning/Info with that log level disabled) — a null parsed
error or debug string faults the handler rather than being replaced by a
sentinel. -/
theorem C1_null_text_behavior (lv : LogLevels) (msg : GstMessage)
    (hk : msg.kind = MsgKind.error ∨ msg.kind = MsgKind.warning ∨
      msg.kind = MsgKind.info) :
    ((bus_callback lv msg).isSome = true ↔
      ((msg.errText ≠ none ∧ msg.dbgText ≠ none)
        ∨ (msg.kind = MsgKind.warning ∧ lv.warnEnabled = false)
        ∨ (msg.kind = MsgKind.info ∧ lv.infoEnabled = false))) ∧
    resolve_name none = "null-source" ∧
    resolve_name (some none) = "null-name" := by
  refine ⟨?_, rfl, rfl⟩
  obtain ⟨k, sn, et, dt, tn⟩ := msg
  obtain ⟨w, i, d⟩ := lv
  rcases hk with hk | hk | hk <;> cases hk <;>
    cases et <;> cases dt <;> cases w <;> cases i <;>
    simp [bus_callback, from_c_str]

/-- C1 witness: an Error message with both strings present is handled
normally. -/
theorem C1_null_text_behavior_witness :
    ((bus_callback { warnEnabled := true, infoEnabled := true,
                     debugEnabled := true }
        { kind := MsgKind.error, src_name := none,
          errText := some "boom", dbgText := some "debug info",
          type_name := "error" }).isSome = true ↔
      (((some "boom" : Option String) ≠ none ∧
        (some "debug info" : Option String) ≠ none)
        ∨ (MsgKind.error = MsgKind.warning ∧ true = false)
        ∨ (MsgKind.error = MsgKind.info ∧ true = false))) ∧
    resolve_name none = "null-source" ∧
    resolve_name (some none) = "null-name" :=
  C1_null_text_behavior
    { warnEnabled := true, infoEnabled := true, debugEnabled := true }
    { kind := MsgKind.error, src_name := none,
      errText := some "boom", dbgText := some "debug info",
      type_name := "error" }
    (Or.inl rfl)

/-- C6 counterexample: an Error bus message with error text "boom" but a
null debug string makes `bus_callback` fault before the `Notify` send, so
no event at all is emitted — refuting "sends exactly one event" for every
Error message with error text E. -/
theorem C6_counterexample :
    bus_callback { warnEnabled := true, infoEnabled := true,
                   debugEnabled := true }
      { kind := MsgKind.error, src_name := some (some "playbin"),
        errText := some "boom", dbgText := none,
        type_name := "error" } = none := by
  rfl

/-- C6 (amended): for every Error bus message whose error text is E and
whose debug string is present, one invocation of `bus_callback` sends
exactly one event — Notify("Playback error: `E`") — and no other event. -/
theorem C6_error_notify (lv : LogLevels) (msg : GstMessage) (e d : String)
    (hk : msg.kind = MsgKind.error) (he : msg.errText = some e)
    (hd : msg.dbgText = some d) :
    bus_callback lv msg =
      some ([Event.Notify ("Playback error: `" ++ e ++ "`")], 1) := by
  simp [bus_callback, from_c_str, hk, he, hd]

/-- C6 witness: the "boom" scenario of the spec. -/
theorem C6_error_notify_witness :
    bus_callback { warnEnabled := true, infoEnabled := true,
                   debugEnabled := true }
      { kind := MsgKind.error, src_name := some (some "playbin"),
        errText := some "boom", dbgText := some "debug info",
        type_name := "error" } =
      some ([Event.Notify ("Playback error: `" ++ "boom" ++ "`")], 1) :=
  C6_error_notify
    { warnEnabled := true, infoEnabled := true, debugEnabled := true }
    { kind := MsgKind.error, src_name := some (some "playbin"),
      errText := some "boom", dbgText := some "debug info",
      type_name := "error" }
    "boom" "debug info" rfl rfl rfl

/-- C7: on a Progress-watcher wake with result fired (`GST_CLOCK_OK`), the
iteration emits `SetProgress (some (position, duration))` exactly when both
the position and the duration query succeed and `SetProgress none` when
either fails, and in both cases continues the loop. -/
theorem C7_progress_tick (posQuery durQuery : Int × Int) :
    progress_watch_body GstClockReturn.ok posQuery durQuery =
      some (ProgressStep.emitAndContinue (Event.SetProgress
        (if posQuery.1 ≠ 0 ∧ durQuery.1 ≠ 0 then
          some (posQuery.2, durQuery.2)
        else none))) := by
  obtain ⟨sp, cp⟩ := posQuery
  obtain ⟨sd, cd⟩ := durQuery
  simp only [progress_watch_body, bne_iff_ne, ne_eq, Bool.and_eq_true,
    decide_eq_true_eq]
  by_cases hsp : sp = 0 <;> by_cases hsd : sd = 0 <;>
    simp [hsp, hsd]

/-- C8: for every Player state, `play`/`pause`/`stop` (and `toggle` and
`set_uri`, which call them) fault exactly when `initialized` is false:
being uninitialized is the only way any of these commands fails. -/
theorem C8_uninitialized_fatal (p : Player) (uri : String) (n : Nat) :
    (p.play = none ↔ p.initialized = false) ∧
    (p.pause = none ↔ p.initialized = false) ∧
    (p.stop = none ↔ p.initialized = false) ∧
    (p.toggle = none ↔ p.initialized = false) ∧
    (p.set_uri uri n = none ↔ p.initialized = false) := by
  obtain ⟨ini, us, pl, rc, pc⟩ := p
  cases ini <;> cases us <;> cases pl <;>
    simp [Player.play, Player.pause, Player.stop, Player.toggle,
      Player.set_uri, Player.start_report_watch, Player.start_progress_watch]

/-- C9: on any initialized Player, `pause()` returns normally, sets only the
`playing` flag (to false), leaves `uri_set`/`can_play`, `initialized` and
both clock-id fields unchanged, and its trace performs no clock-handle
cancellation or release — so pending watchers are not cancelled. -/
theorem C9_pause_frame (p : Player) (h : p.initialized = true) :
    ∃ q tr, p.pause = some (q, tr) ∧
      q.playing = false ∧
      q.uri_set = p.uri_set ∧ q.can_play = p.can_play ∧
      q.initialized = p.initialized ∧
      q.report_clock_id = p.report_clock_id ∧
      q.progress_clock_id = p.progress_clock_id ∧
      tr = [Effect.gstElementSetState GstState.paused] ∧
      (∀ ci, Effect.gstClockIdUnschedule ci ∉ tr ∧
        Effect.gstClockIdUnref ci ∉ tr) := by
  have hp : p.pause = some ({ p with playing := false },
      [Effect.gstElementSetState GstState.paused]) := by
    simp [Player.pause, h]
  refine ⟨_, _, hp, rfl, rfl, rfl, rfl, rfl, rfl, rfl, ?_⟩
  intro ci
  simp

/-- C9 witness: pausing a concrete playing Player holding handles 3 and 4. -/
theorem C9_pause_frame_witness :
    ∃ q tr,
      Player.pause { initialized := true, uri_set := true, playing := true,
                     report_clock_id := some 3, progress_clock_id := some 4 }
        = some (q, tr) ∧
      q.playing = false ∧
      q.uri_set = Player.uri_set
        { initialized := true, uri_set := true, playing := true,
          report_clock_id := some 3, progress_clock_id := some 4 } ∧
      q.can_play = Player.can_play
        { initialized := true, uri_set := true, playing := true,
          report_clock_id := some 3, progress_clock_id := some 4 } ∧
      q.initialized = Player.initialized
        { initialized := true, uri_set := true, playing := true,
          report_clock_id := some 3, progress_clock_id := some 4 } ∧
      q.report_clock_id = Player.report_clock_id
        { initialized := true, uri_set := true, playing := true,
          report_clock_id := some 3, progress_clock_id := some 4 } ∧
      q.progress_clock_id = Player.progress_clock_id
        { initialized := true, uri_set := true, playing := true,
          report_clock_id := some 3, progress_clock_id := some 4 } ∧
      tr = [Effect.gstElementSetState GstState.paused] ∧
      (∀ ci, Effect.gstClockIdUnschedule ci ∉ tr ∧
        Effect.gstClockIdUnref ci ∉ tr) :=
  C9_pause_frame
    { initialized := true, uri_set := true, playing := true,
      report_clock_id := some 3, progress_clock_id := some 4 } rfl

/-- C10: `stop()` is idempotent on Player state: on any initialized Player,
the second of two consecutive `stop()` calls returns exactly the state the
first one produced (all fields, including both clock-id fields, and hence
`is_playing()` and `can_play()`). -/
theorem C10_stop_idempotent (p : Player) (h : p.initialized = true) :
    ∃ q tr1 tr2, p.stop = some (q, tr1) ∧ q.stop = some (q, tr2) := by
  refine ⟨_, _, [Effect.gstElementSetState GstState.ready], stop_eq p h, ?_⟩
  simp [Player.stop, h, dropOptEffects]

/-- C10 witness: double stop on a concrete playing Player. -/
theorem C10_stop_idempotent_witness :
    ∃ q tr1 tr2,
      Player.stop { initialized := true, uri_set := true, playing := true,
                    report_clock_id := some 0, progress_clock_id := some 1 }
        = some (q, tr1) ∧
      q.stop = some (q, tr2) :=
  C10_stop_idempotent
    { initialized := true, uri_set := true, playing := true,
      report_clock_id := some 0, progress_clock_id := some 1 } rfl

/-- Every command step preserves the supply bound: all held clock ids stay
below the fresh-id counter (so the ids handed out by `set_uri` are new). -/
theorem step_preserves_idsBelow (s : Sys) (c : Cmd) (s1 : Sys)
    (tr : List Effect) (h : s.step c = some (s1, tr))
    (hb : idsBelow s.player s.next_ci = true) :
    idsBelow s1.player s1.next_ci = true := by
  obtain ⟨⟨ini, us, pl, rc, pc⟩, n⟩ := s
  cases c <;> cases ini <;> cases us <;> cases pl <;>
    simp_all [Sys.step, Player.init, Player.set_uri, Player.stop,
      Player.start_report_watch, Player.start_progress_watch,
      Player.play, Player.pause, Player.toggle, idsBelow] <;>
    (try (obtain ⟨a, ⟨-, rfl, rfl⟩, rfl⟩ := h)) <;> (try subst a) <;>
    (try simp_all [idsBelow]) <;> omega

/-- In every state reachable from the fresh system, all held clock ids are
below the fresh-id counter. -/
theorem run_idsBelow (cmds : List Cmd) (s : Sys)
    (h : run Sys.new cmds = some s) :
    idsBelow s.player s.next_ci = true := by
  suffices hgen : ∀ cmds (s0 s1 : Sys), run s0 cmds = some s1 →
      idsBelow s0.player s0.next_ci = true →
      idsBelow s1.player s1.next_ci = true by
    exact hgen cmds Sys.new s h (by decide)
  intro cmds
  induction cmds with
  | nil =>
    intro s0 s1 h0 hb
    simp [run] at h0
    exact h0 ▸ hb
  | cons c cs ih =>
    intro s0 s1 h0 hb
    unfold run at h0
    cases hstep : s0.step c with
    | none => rw [hstep] at h0; exact absurd h0 (by simp)
    | some r =>
      rw [hstep] at h0
      exact ih r.1 s1 h0 (step_preserves_idsBelow s0 c r.1 r.2 hstep hb)
